import Mathlib

/-!
Shallow embedding of the xadk/bucketclient Go package (src/api.go, src/wrapper.go,
src/seeker.go) and proofs about the claims of its specification.

Modelling conventions, used uniformly below:
* time.Time instants are modelled as integers (an absolute tick count); the only
  operation the source performs on them is the strict comparison time.Now().Before(t).
* JSON byte strings are identified with the JSON values they encode: the Go code
  re-serializes the envelope's data field with json.Marshal and every consumer
  immediately json.Unmarshal-s those bytes, so the byte round trip is the identity
  at the level of this model and a raw []byte payload is represented by a Json value.
* The HTTP transport is an external collaborator: each request-performing operation
  takes a WireOutcome oracle argument describing what the network returned for that
  call (transport error, body-read error, envelope decode error, or a decoded
  envelope).  Operations that may trigger a session renewal take two oracles, one
  for the renewal call and one for the actual request.
* Every performed HTTP round trip (an executed client.Do) is recorded in an output
  list of NetCall values, so that absence of network activity is observable.
* Go receivers are modelled exactly: pointer-receiver methods take the BucketDB
  state and return the updated state; value-receiver methods (apiV1Request,
  apiV1RequestGeneric) take the state and do NOT return it, because in Go they
  operate on a copy and the caller's struct is unchanged.
* Go's json.Unmarshal into an existing struct merges: keys present in the JSON
  object overwrite the corresponding fields (recursively for nested structs and
  maps), keys absent leave the old field value, and a type-mismatched field is
  skipped while the first such mismatch is reported as the returned error.  The
  unmarshal*Into functions below implement the merge and the *UnmarshalErr
  functions the reported error.
* Go's % on int is truncated division remainder, Int.tmod in Lean; x % 0 panics at
  runtime, modelled by the GoOutcome.panic constructor.
* sync.Mutex fields only serialize concurrent access and have no sequential
  semantics; they are omitted.  url.Values is a map from string keys to lists of
  strings, modelled as an association list with unique keys; Values.Encode's key
  sorting and percent-escaping are not reproduced (no claim observes the escaped
  byte form, only which parameter values are sent).
-/

namespace BucketClient

/-- A JSON value, standing both for decoded interface\x7b\x7d data and for the byte
strings json.Marshal produces from it. -/
inductive Json where
  | null
  | bool (b : Bool)
  | num (n : Int)
  | str (s : String)
  | arr (elems : List Json)
  | obj (fields : List (String × Json))

/-- Whether a JSON value is a string. -/
def Json.isStr : Json → Bool
  | .str _ => true
  | _ => false

/-- Whether a JSON value is a number. -/
def Json.isNum : Json → Bool
  | .num _ => true
  | _ => false

/-- Whether a JSON value is a boolean. -/
def Json.isBool : Json → Bool
  | .bool _ => true
  | _ => false

/-- Whether a JSON value is an object. -/
def Json.isObj : Json → Bool
  | .obj _ => true
  | _ => false

/-- Field lookup in a JSON object's field list. -/
def jLookup (fs : List (String × Json)) (k : String) : Option Json :=
  match fs with
  | [] => none
  | (k₂, v) :: rest => if k₂ = k then some v else jLookup rest k

/-- String field with default: the merge rule for a string-typed Go struct field. -/
def jStrD (fs : List (String × Json)) (k : String) (d : String) : String :=
  match jLookup fs k with
  | some (.str s) => s
  | _ => d

/-- Integer field with default: the merge rule for an int- or time-typed field. -/
def jNumD (fs : List (String × Json)) (k : String) (d : Int) : Int :=
  match jLookup fs k with
  | some (.num n) => n
  | _ => d

/-- Boolean field with default: the merge rule for a bool-typed Go struct field. -/
def jBoolD (fs : List (String × Json)) (k : String) (d : Bool) : Bool :=
  match jLookup fs k with
  | some (.bool b) => b
  | _ => d

/-- First decoding error among a list of per-field checks, mirroring how Go's
json.Unmarshal reports the first UnmarshalTypeError while still decoding the
remaining fields. -/
def firstErr (l : List (Option String)) : Option String :=
  l.findSome? id

/-- Error check for one struct field: present with the wrong JSON shape is an error,
absent is fine. -/
def jFieldErr (fs : List (String × Json)) (k : String) (ok : Json → Bool) : Option String :=
  match jLookup fs k with
  | none => none
  | some v => if ok v then none else some ("json: cannot unmarshal field " ++ k)

/-- url.Values: string keys mapped to lists of string values. -/
def Values := List (String × List String)

/-- Values.Get: the first value stored under a key, if any. -/
def valuesGet (vs : Values) (k : String) : Option (List String) :=
  match vs with
  | [] => none
  | (k₂, v) :: rest => if k₂ = k then some v else valuesGet rest k

/-- Values.Set: replace the values stored under a key by the one given value. -/
def valuesSet (vs : Values) (k : String) (v : String) : Values :=
  match vs with
  | [] => [(k, [v])]
  | (k₂, v₂) :: rest => if k₂ = k then (k, [v]) :: rest else (k₂, v₂) :: valuesSet rest k v

/-- Values.Encode, up to Go's key sorting and percent-escaping: each key=value pair
joined with ampersands. -/
def valuesEncode (vs : Values) : String :=
  String.intercalate "&" (List.flatten (vs.map fun kv => kv.2.map fun v => kv.1 ++ "=" ++ v))

/-- Standard Metadata dictionary object (map[string]interface\x7b\x7d). -/
def Metadata := List (String × Json)

/-- Go merge of a JSON object into an existing map: existing entries are kept,
entries present in the JSON overwrite or extend them. -/
def metaMerge (old : Metadata) (fs : List (String × Json)) : Metadata :=
  match fs with
  | [] => old
  | (k, v) :: rest => metaMerge (metaInsert old k v) rest
where
  metaInsert (m : Metadata) (k : String) (v : Json) : Metadata :=
    match m with
    | [] => [(k, v)]
    | (k₂, v₂) :: rest => if k₂ = k then (k, v) :: rest else (k₂, v₂) :: metaInsert rest k v

/-- Metadata field merge rule: an object merges into the existing map, anything
else (or absence) leaves it unchanged. -/
def jMetaD (fs : List (String × Json)) (k : String) (d : Metadata) : Metadata :=
  match jLookup fs k with
  | some (.obj mfs) => metaMerge d mfs
  | _ => d

/-- HTTP request method constants of api.go. -/
inductive RequestMethod where
  | GET
  | POST
  | PUT
  | DELETE
deriving DecidableEq

/-- The standard response envelope APIV1Response of wrapper.go. -/
structure APIV1Response where
  version : Int := 0
  success : Bool := false
  msg : String := ""
  code : Int := 0
  err : String := ""
  data : Json := .null

/-- What the network returned for one HTTP round trip: client.Do failed, reading
the response body failed, the envelope bytes failed to decode, or an envelope. -/
inductive WireOutcome where
  | transportErr (e : String)
  | readErr (e : String)
  | decodeErr (e : String)
  | envelope (res : APIV1Response)

/-- A Go (data, err) result pair. -/
structure GoResult (α : Type) where
  data : α
  err : Option String

/-- One executed HTTP round trip, as assembled by apiV1RequestGeneric (or by the
direct content fetch): method, full URL, final headers, and whether a body was
attached. -/
structure NetCall where
  method : RequestMethod
  url : String
  headers : Values
  hasBody : Bool

/-- Outcome of running a piece of Go code that can panic. -/
inductive GoOutcome (α : Type) where
  | ok (v : α)
  | panic (msg : String)

/-- The User record of wrapper.go; time.Time fields are modelled as Int. -/
structure User where
  userID : Int := 0
  username : String := ""
  email : String := ""
  firstName : String := ""
  lastName : String := ""
  gender : String := ""
  avatar : String := ""
  phone : String := ""
  address : String := ""
  country : String := ""
  zipCode : String := ""
  dateOfBirth : Int := 0
  roles : Int := 0
  metadata : Metadata := []
  updatedAt : Int := 0
  joinedAt : Int := 0

/-- The zero User value (var me User). -/
def User.zero : User := {}

/-- Go json.Unmarshal of a JSON value into an existing User: field-by-field merge. -/
def unmarshalUserInto (u : User) (j : Json) : User :=
  match j with
  | .obj fs =>
    { userID := jNumD fs "user_id" u.userID
      username := jStrD fs "username" u.username
      email := jStrD fs "email" u.email
      firstName := jStrD fs "first_name" u.firstName
      lastName := jStrD fs "last_name" u.lastName
      gender := jStrD fs "gender" u.gender
      avatar := jStrD fs "avatar" u.avatar
      phone := jStrD fs "phone" u.phone
      address := jStrD fs "address" u.address
      country := jStrD fs "country" u.country
      zipCode := jStrD fs "zip_code" u.zipCode
      dateOfBirth := jNumD fs "date_of_birth" u.dateOfBirth
      roles := jNumD fs "roles" u.roles
      metadata := jMetaD fs "metadata" u.metadata
      updatedAt := jNumD fs "updated_at" u.updatedAt
      joinedAt := jNumD fs "joined_at" u.joinedAt }
  | _ => u

/-- The error json.Unmarshal reports when decoding into a User. -/
def userUnmarshalErr (j : Json) : Option String :=
  match j with
  | .obj fs =>
    firstErr
      [jFieldErr fs "user_id" Json.isNum, jFieldErr fs "username" Json.isStr,
       jFieldErr fs "email" Json.isStr, jFieldErr fs "first_name" Json.isStr,
       jFieldErr fs "last_name" Json.isStr, jFieldErr fs "gender" Json.isStr,
       jFieldErr fs "avatar" Json.isStr, jFieldErr fs "phone" Json.isStr,
       jFieldErr fs "address" Json.isStr, jFieldErr fs "country" Json.isStr,
       jFieldErr fs "zip_code" Json.isStr, jFieldErr fs "date_of_birth" Json.isNum,
       jFieldErr fs "roles" Json.isNum, jFieldErr fs "metadata" Json.isObj,
       jFieldErr fs "updated_at" Json.isNum, jFieldErr fs "joined_at" Json.isNum]
  | .null => none
  | _ => some "json: cannot unmarshal value into User"

/-- The SessionData record of wrapper.go. -/
structure SessionData where
  token : String := ""
  issuedAt : Int := 0
  subject : Int := 0
  expiry : Int := 0
  user : User := {}

/-- Go json.Unmarshal of a JSON value into an existing SessionData: field-by-field
merge; the nested user object merges recursively into the existing User. -/
def unmarshalSessionInto (s : SessionData) (j : Json) : SessionData :=
  match j with
  | .obj fs =>
    { token := jStrD fs "token" s.token
      issuedAt := jNumD fs "issuedAt" s.issuedAt
      subject := jNumD fs "subject" s.subject
      expiry := jNumD fs "expiry" s.expiry
      user :=
        match jLookup fs "user" with
        | some ju => unmarshalUserInto s.user ju
        | none => s.user }
  | _ => s

/-- The error json.Unmarshal reports when decoding into a SessionData. -/
def sessionUnmarshalErr (j : Json) : Option String :=
  match j with
  | .obj fs =>
    firstErr
      [jFieldErr fs "token" Json.isStr, jFieldErr fs "issuedAt" Json.isNum,
       jFieldErr fs "subject" Json.isNum, jFieldErr fs "expiry" Json.isNum,
       (match jLookup fs "user" with
        | some ju => userUnmarshalErr ju
        | none => none)]
  | .null => none
  | _ => some "json: cannot unmarshal value into SessionData"

/-- The Bucket record of wrapper.go. -/
structure Bucket where
  bucketID : Int := 0
  aliasName : String := ""
  ownerID : Int := 0
  isPublic : Bool := false
  metadata : Metadata := []
  updatedAt : Int := 0
  createdAt : Int := 0

/-- The zero Bucket value. -/
def Bucket.zero : Bucket := {}

/-- Go json.Unmarshal of a JSON value into an existing Bucket. -/
def unmarshalBucketInto (b : Bucket) (j : Json) : Bucket :=
  match j with
  | .obj fs =>
    { bucketID := jNumD fs "bucket_id" b.bucketID
      aliasName := jStrD fs "alias" b.aliasName
      ownerID := jNumD fs "owner_id" b.ownerID
      isPublic := jBoolD fs "is_public" b.isPublic
      metadata := jMetaD fs "metadata" b.metadata
      updatedAt := jNumD fs "updated_at" b.updatedAt
      createdAt := jNumD fs "created_at" b.createdAt }
  | _ => b

/-- The error json.Unmarshal reports when decoding into a Bucket. -/
def bucketUnmarshalErr (j : Json) : Option String :=
  match j with
  | .obj fs =>
    firstErr
      [jFieldErr fs "bucket_id" Json.isNum, jFieldErr fs "alias" Json.isStr,
       jFieldErr fs "owner_id" Json.isNum, jFieldErr fs "is_public" Json.isBool,
       jFieldErr fs "metadata" Json.isObj, jFieldErr fs "updated_at" Json.isNum,
       jFieldErr fs "created_at" Json.isNum]
  | .null => none
  | _ => some "json: cannot unmarshal value into Bucket"

/-- The Object record of wrapper.go. -/
structure Object where
  objectID : Int := 0
  aliasName : String := ""
  parentID : Int := 0
  isPublic : Bool := false
  contentType : String := ""
  sqlContentType : String := ""
  contentLength : Int := 0
  metadata : Metadata := []
  updatedAt : Int := 0
  createdAt : Int := 0

/-- The zero Object value. -/
def Object.zero : Object := {}

/-- Go json.Unmarshal of a JSON value into an existing Object. -/
def unmarshalObjectInto (o : Object) (j : Json) : Object :=
  match j with
  | .obj fs =>
    { objectID := jNumD fs "object_id" o.objectID
      aliasName := jStrD fs "alias" o.aliasName
      parentID := jNumD fs "parent_id" o.parentID
      isPublic := jBoolD fs "is_public" o.isPublic
      contentType := jStrD fs "content_type" o.contentType
      sqlContentType := jStrD fs "sql_content_type" o.sqlContentType
      contentLength := jNumD fs "content_length" o.contentLength
      metadata := jMetaD fs "metadata" o.metadata
      updatedAt := jNumD fs "updated_at" o.updatedAt
      createdAt := jNumD fs "created_at" o.createdAt }
  | _ => o

/-- The error json.Unmarshal reports when decoding into an Object. -/
def objectUnmarshalErr (j : Json) : Option String :=
  match j with
  | .obj fs =>
    firstErr
      [jFieldErr fs "object_id" Json.isNum, jFieldErr fs "alias" Json.isStr,
       jFieldErr fs "parent_id" Json.isNum, jFieldErr fs "is_public" Json.isBool,
       jFieldErr fs "content_type" Json.isStr, jFieldErr fs "sql_content_type" Json.isStr,
       jFieldErr fs "content_length" Json.isNum, jFieldErr fs "metadata" Json.isObj,
       jFieldErr fs "updated_at" Json.isNum, jFieldErr fs "created_at" Json.isNum]
  | .null => none
  | _ => some "json: cannot unmarshal value into Object"

/-- json.Marshal of a User body.  The omitempty tags of the source elide zero
fields from the byte encoding; request bodies are never inspected by any modelled
component, so the full field list is emitted here. -/
def marshalUser (u : User) : Json :=
  .obj
    [("user_id", .num u.userID), ("username", .str u.username), ("email", .str u.email),
     ("first_name", .str u.firstName), ("last_name", .str u.lastName),
     ("gender", .str u.gender), ("avatar", .str u.avatar), ("phone", .str u.phone),
     ("address", .str u.address), ("country", .str u.country),
     ("zip_code", .str u.zipCode), ("date_of_birth", .num u.dateOfBirth),
     ("roles", .num u.roles), ("metadata", .obj u.metadata),
     ("updated_at", .num u.updatedAt), ("joined_at", .num u.joinedAt)]

/-- json.Marshal of a Bucket body (see marshalUser on omitempty). -/
def marshalBucket (b : Bucket) : Json :=
  .obj
    [("bucket_id", .num b.bucketID), ("alias", .str b.aliasName),
     ("owner_id", .num b.ownerID), ("is_public", .bool b.isPublic),
     ("metadata", .obj b.metadata), ("updated_at", .num b.updatedAt),
     ("created_at", .num b.createdAt)]

/-- json.Marshal of an Object body (see marshalUser on omitempty). -/
def marshalObject (o : Object) : Json :=
  .obj
    [("object_id", .num o.objectID), ("alias", .str o.aliasName),
     ("parent_id", .num o.parentID), ("is_public", .bool o.isPublic),
     ("content_type", .str o.contentType), ("sql_content_type", .str o.sqlContentType),
     ("content_length", .num o.contentLength), ("metadata", .obj o.metadata),
     ("updated_at", .num o.updatedAt), ("created_at", .num o.createdAt)]

/-- The BucketDB state of wrapper.go: host, static credentials, the tracked
session, and the error traceback list.  The mutex only guards concurrent access
and is omitted. -/
structure BucketDB where
  host : String := ""
  username : String := ""
  password : String := ""
  session : SessionData := {}
  traceback : List String := []

/-- NewBucketDB: fresh state with empty session and empty traceback. -/
def NewBucketDB (host username password : String) : BucketDB :=
  { host := host, username := username, password := password }

/-- Errorf of wrapper.go: build an error (already formatted here) and append it to
the traceback before handing it back. -/
def Errorf (db : BucketDB) (msg : String) : BucketDB × String :=
  ({ db with traceback := db.traceback ++ [msg] }, msg)

/-- IsValidSession: time.Now().Before(expiry), a strict comparison of the current
instant against the stored expiry. -/
def IsValidSession (db : BucketDB) (now : Int) : Bool :=
  decide (now < db.session.expiry)

/-- Result of apiV1RequestGeneric: the Go (data bytes, err) pair plus the list of
HTTP round trips executed. -/
structure GenOut where
  res : GoResult (Option Json)
  calls : List NetCall

/-- The final header set NewRequest plus the header loop of apiV1RequestGeneric
produce: the caller's headers, or the Content-Type default when a body is present
and none were given, with the Authorization bearer header overwritten on top when
a token is stored. -/
def genericHeaders (db : BucketDB) (headers : Option Values) (body : Option Json) : Values :=
  let hs : Values :=
    match headers with
    | some h => h
    | none => if body.isSome then [("Content-Type", ["application/json"])] else []
  if db.session.token = "" then hs
  else valuesSet hs "Authorization" ("Bearer " ++ db.session.token)

/-- The one HTTP round trip apiV1RequestGeneric executes. -/
def genericNetCall (db : BucketDB) (method : RequestMethod) (endpoint : String)
    (headers : Option Values) (body : Option Json) : NetCall :=
  { method := method, url := db.host ++ endpoint,
    headers := genericHeaders db headers body, hasBody := body.isSome }

/-- apiV1RequestGeneric of api.go (value receiver: reads db, never mutates it).
http.NewRequest is assumed to accept the constant methods and the endpoint (its
URL-parse failure path is not modelled).  After a successful envelope decode the
data field is re-serialized (represented by the Json value itself); an envelope
with success=false, and otherwise an envelope with a non-empty err string, yield
an error built exactly from the source's two fmt.Errorf format strings. -/
def apiV1RequestGeneric (db : BucketDB) (wire : WireOutcome) (method : RequestMethod)
    (endpoint : String) (headers : Option Values) (body : Option Json) : GenOut :=
  let call := genericNetCall db method endpoint headers body
  match wire with
  | .transportErr e => ⟨⟨none, some e⟩, [call]⟩
  | .readErr e => ⟨⟨none, some e⟩, [call]⟩
  | .decodeErr e => ⟨⟨none, some e⟩, [call]⟩
  | .envelope res =>
    if res.success = false then
      ⟨⟨some res.data, some ("failed: " ++ res.msg ++ " (" ++ res.err ++ ")")⟩, [call]⟩
    else if res.err ≠ "" then
      ⟨⟨some res.data, some (res.msg ++ " (err: " ++ res.err ++ ")")⟩, [call]⟩
    else
      ⟨⟨some res.data, none⟩, [call]⟩

/-- The JSON body of the renewal call: json.Marshal of SessionCreds (this marshal
cannot fail, so the source's marshal-error return is unreachable). -/
def credsJson (db : BucketDB) : Json :=
  .obj [("username", .str db.username), ("password", .str db.password)]

/-- Result of UpdateSession: the updated state, the returned error, the calls. -/
structure UpdOut where
  db : BucketDB
  err : Option String
  calls : List NetCall

/-- UpdateSession of wrapper.go (pointer receiver): POST the static credentials to
the session endpoint; on any request error return it with the state untouched;
on success json.Unmarshal the returned data into the stored session (a
field-by-field merge, applied even when a field's type mismatch makes the
unmarshal report an error). -/
def UpdateSession (db : BucketDB) (wire : WireOutcome) : UpdOut :=
  let g := apiV1RequestGeneric db wire .POST "/api/v1/session" none (some (credsJson db))
  match g.res.err with
  | some e => ⟨db, some e, g.calls⟩
  | none =>
    let j := g.res.data.getD .null
    ⟨{ db with session := unmarshalSessionInto db.session j }, sessionUnmarshalErr j, g.calls⟩

/-- Result of apiV1Request: the (data, err) pair, the calls, and an
instrumentation bit recording whether the renewal branch ran.  No updated
BucketDB is returned: the Go method has a value receiver, so any renewal it
performs mutates only its local copy and is invisible to the caller. -/
structure ReqOut where
  res : GoResult (Option Json)
  calls : List NetCall
  renewed : Bool

/-- apiV1Request of api.go: renew the session of the local copy when the stored
one is not valid at the current instant, propagate a renewal error without
performing the requested call, and otherwise run apiV1RequestGeneric (with the
renewed copy's session when a renewal happened). -/
def apiV1Request (db : BucketDB) (now : Int) (renewWire reqWire : WireOutcome)
    (method : RequestMethod) (endpoint : String) (headers : Option Values)
    (body : Option Json) : ReqOut :=
  if IsValidSession db now then
    let g := apiV1RequestGeneric db reqWire method endpoint headers body
    ⟨g.res, g.calls, false⟩
  else
    let u := UpdateSession db renewWire
    match u.err with
    | some e => ⟨⟨none, some e⟩, u.calls, true⟩
    | none =>
      let g := apiV1RequestGeneric u.db reqWire method endpoint headers body
      ⟨g.res, u.calls ++ g.calls, true⟩

/-- Result of an operation returning Go (*T, error) together with the updated
state and the executed calls.  val none models a nil pointer result. -/
structure OpOut (α : Type) where
  db : BucketDB
  val : Option α
  err : Option String
  calls : List NetCall

/-- Result of an operation returning only a Go error. -/
structure ErrOut where
  db : BucketDB
  err : Option String
  calls : List NetCall

/-- Me of wrapper.go (pointer receiver): GET the current user, decode it into a
fresh zero User, store it into session.User and return its address. -/
def Me (db : BucketDB) (now : Int) (renewWire reqWire : WireOutcome) : OpOut User :=
  let o := apiV1Request db now renewWire reqWire .GET "/api/v1/users/@me" none none
  match o.res.err with
  | some e => ⟨db, none, some e, o.calls⟩
  | none =>
    let j := o.res.data.getD .null
    match userUnmarshalErr j with
    | some e => ⟨db, none, some e, o.calls⟩
    | none =>
      let me := unmarshalUserInto User.zero j
      ⟨{ db with session := { db.session with user := me } }, some me, none, o.calls⟩

/-- UpdateMe of wrapper.go (pointer receiver): PUT the new user record, decode the
response into a fresh zero User, store it into session.User. -/
def UpdateMe (db : BucketDB) (newMe : User) (now : Int)
    (renewWire reqWire : WireOutcome) : OpOut User :=
  let o := apiV1Request db now renewWire reqWire .PUT "/api/v1/users/@me" none
    (some (marshalUser newMe))
  match o.res.err with
  | some e => ⟨db, none, some e, o.calls⟩
  | none =>
    let j := o.res.data.getD .null
    match userUnmarshalErr j with
    | some e => ⟨db, none, some e, o.calls⟩
    | none =>
      let user := unmarshalUserInto User.zero j
      ⟨{ db with session := { db.session with user := user } }, some user, none, o.calls⟩

/-- CreateBucket of wrapper.go: POST the bucket; the decoded response bucket's
address is returned even when its decode errors (Go returns the pointer together
with json.Unmarshal's error). -/
def CreateBucket (db : BucketDB) (bucket : Bucket) (now : Int)
    (renewWire reqWire : WireOutcome) : OpOut Bucket :=
  let o := apiV1Request db now renewWire reqWire .POST "/api/v1/buckets" none
    (some (marshalBucket bucket))
  match o.res.err with
  | some e => ⟨db, none, some e, o.calls⟩
  | none =>
    let j := o.res.data.getD .null
    ⟨db, some (unmarshalBucketInto Bucket.zero j), bucketUnmarshalErr j, o.calls⟩

/-- GetMyBucket of wrapper.go: GET one bucket under the stored username. -/
def GetMyBucket (db : BucketDB) (query : String) (now : Int)
    (renewWire reqWire : WireOutcome) : OpOut Bucket :=
  let o := apiV1Request db now renewWire reqWire .GET
    ("/api/v1/buckets/" ++ db.username ++ "/" ++ query) none none
  match o.res.err with
  | some e => ⟨db, none, some e, o.calls⟩
  | none =>
    let j := o.res.data.getD .null
    ⟨db, some (unmarshalBucketInto Bucket.zero j), bucketUnmarshalErr j, o.calls⟩

/-- Decoded element list of a JSON array: each element is unmarshalled into a
fresh zero value of its record type (the decoded slice always replaces the nil
zero slice). -/
def listUnmarshal (zero : α) (into : α → Json → α) (j : Json) : List α :=
  match j with
  | .arr xs => xs.map (into zero)
  | _ => []

/-- The error json.Unmarshal reports when decoding a JSON value into a slice:
null and arrays are fine apart from element errors, everything else cannot be
unmarshalled into a slice type. -/
def listUnmarshalErr (elemErr : Json → Option String) (j : Json) : Option String :=
  match j with
  | .null => none
  | .arr xs => firstErr (xs.map elemErr)
  | _ => some "json: cannot unmarshal value into slice"

/-- The optional query-string suffix of the list endpoints: a question mark plus
the encoded params when they encode non-empty (modelled structurally: non-empty
when some key carries a value).  The source splices this suffix into the
fmt.Sprintf format string after the verb, which for percent-free encodings is
plain concatenation. -/
def querySuffix (params : Values) : String :=
  if valuesEncode params = "" then "" else "?" ++ valuesEncode params

/-- GetMyBuckets of wrapper.go: GET the bucket list under the stored username. -/
def GetMyBuckets (db : BucketDB) (params : Values) (now : Int)
    (renewWire reqWire : WireOutcome) : OpOut (List Bucket) :=
  let o := apiV1Request db now renewWire reqWire .GET
    ("/api/v1/buckets/" ++ db.username ++ querySuffix params) none none
  match o.res.err with
  | some e => ⟨db, none, some e, o.calls⟩
  | none =>
    let j := o.res.data.getD .null
    ⟨db, some (listUnmarshal Bucket.zero unmarshalBucketInto j),
      listUnmarshalErr bucketUnmarshalErr j, o.calls⟩

/-- GetPublicBucket of wrapper.go. -/
def GetPublicBucket (db : BucketDB) (userQuery query : String) (now : Int)
    (renewWire reqWire : WireOutcome) : OpOut Bucket :=
  let o := apiV1Request db now renewWire reqWire .GET
    ("/api/v1/buckets/" ++ userQuery ++ "/" ++ query) none none
  match o.res.err with
  | some e => ⟨db, none, some e, o.calls⟩
  | none =>
    let j := o.res.data.getD .null
    ⟨db, some (unmarshalBucketInto Bucket.zero j), bucketUnmarshalErr j, o.calls⟩

/-- GetPublicBuckets of wrapper.go. -/
def GetPublicBuckets (db : BucketDB) (userQuery : String) (params : Values) (now : Int)
    (renewWire reqWire : WireOutcome) : OpOut (List Bucket) :=
  let o := apiV1Request db now renewWire reqWire .GET
    ("/api/v1/buckets/" ++ userQuery ++ querySuffix params) none none
  match o.res.err with
  | some e => ⟨db, none, some e, o.calls⟩
  | none =>
    let j := o.res.data.getD .null
    ⟨db, some (listUnmarshal Bucket.zero unmarshalBucketInto j),
      listUnmarshalErr bucketUnmarshalErr j, o.calls⟩

/-- UpdateBucket of wrapper.go: PUT the new bucket record. -/
def UpdateBucket (db : BucketDB) (query : String) (newBucket : Bucket) (now : Int)
    (renewWire reqWire : WireOutcome) : OpOut Bucket :=
  let o := apiV1Request db now renewWire reqWire .PUT
    ("/api/v1/buckets/" ++ query) none (some (marshalBucket newBucket))
  match o.res.err with
  | some e => ⟨db, none, some e, o.calls⟩
  | none =>
    let j := o.res.data.getD .null
    ⟨db, some (unmarshalBucketInto Bucket.zero j), bucketUnmarshalErr j, o.calls⟩

/-- DeleteBucket of wrapper.go. -/
def DeleteBucket (db : BucketDB) (query : String) (now : Int)
    (renewWire reqWire : WireOutcome) : ErrOut :=
  let o := apiV1Request db now renewWire reqWire .DELETE
    ("/api/v1/buckets/" ++ query) none none
  ⟨db, o.res.err, o.calls⟩

/-- CreateObject of wrapper.go. -/
def CreateObject (db : BucketDB) (bucketQuery : String) (obj : Object) (now : Int)
    (renewWire reqWire : WireOutcome) : OpOut Object :=
  let o := apiV1Request db now renewWire reqWire .POST
    ("/api/v1/objects/" ++ bucketQuery) none (some (marshalObject obj))
  match o.res.err with
  | some e => ⟨db, none, some e, o.calls⟩
  | none =>
    let j := o.res.data.getD .null
    ⟨db, some (unmarshalObjectInto Object.zero j), objectUnmarshalErr j, o.calls⟩

/-- GetMyObject of wrapper.go. -/
def GetMyObject (db : BucketDB) (bucketQuery objQuery : String) (now : Int)
    (renewWire reqWire : WireOutcome) : OpOut Object :=
  let o := apiV1Request db now renewWire reqWire .GET
    ("/api/v1/objects/" ++ db.username ++ "/" ++ bucketQuery ++ "/" ++ objQuery) none none
  match o.res.err with
  | some e => ⟨db, none, some e, o.calls⟩
  | none =>
    let j := o.res.data.getD .null
    ⟨db, some (unmarshalObjectInto Object.zero j), objectUnmarshalErr j, o.calls⟩

/-- GetMyObjects of wrapper.go. -/
def GetMyObjects (db : BucketDB) (bucketQuery : String) (params : Values) (now : Int)
    (renewWire reqWire : WireOutcome) : OpOut (List Object) :=
  let o := apiV1Request db now renewWire reqWire .GET
    ("/api/v1/objects/" ++ bucketQuery ++ querySuffix params) none none
  match o.res.err with
  | some e => ⟨db, none, some e, o.calls⟩
  | none =>
    let j := o.res.data.getD .null
    ⟨db, some (listUnmarshal Object.zero unmarshalObjectInto j),
      listUnmarshalErr objectUnmarshalErr j, o.calls⟩

/-- GetPublicObject of wrapper.go. -/
def GetPublicObject (db : BucketDB) (userQuery bucketQuery objQuery : String) (now : Int)
    (renewWire reqWire : WireOutcome) : OpOut Object :=
  let o := apiV1Request db now renewWire reqWire .GET
    ("/api/v1/objects/" ++ userQuery ++ "/" ++ bucketQuery ++ "/" ++ objQuery) none none
  match o.res.err with
  | some e => ⟨db, none, some e, o.calls⟩
  | none =>
    let j := o.res.data.getD .null
    ⟨db, some (unmarshalObjectInto Object.zero j), objectUnmarshalErr j, o.calls⟩

/-- GetPublicObjects of wrapper.go. -/
def GetPublicObjects (db : BucketDB) (userQuery bucketQuery : String) (params : Values)
    (now : Int) (renewWire reqWire : WireOutcome) : OpOut (List Object) :=
  let o := apiV1Request db now renewWire reqWire .GET
    ("/api/v1/objects/" ++ userQuery ++ "/" ++ bucketQuery ++ querySuffix params) none none
  match o.res.err with
  | some e => ⟨db, none, some e, o.calls⟩
  | none =>
    let j := o.res.data.getD .null
    ⟨db, some (listUnmarshal Object.zero unmarshalObjectInto j),
      listUnmarshalErr objectUnmarshalErr j, o.calls⟩

/-- UpdateObject of wrapper.go. -/
def UpdateObject (db : BucketDB) (bucketQuery objQuery : String) (newObj : Object)
    (now : Int) (renewWire reqWire : WireOutcome) : OpOut Object :=
  let o := apiV1Request db now renewWire reqWire .PUT
    ("/api/v1/objects/" ++ bucketQuery ++ "/" ++ objQuery) none (some (marshalObject newObj))
  match o.res.err with
  | some e => ⟨db, none, some e, o.calls⟩
  | none =>
    let j := o.res.data.getD .null
    ⟨db, some (unmarshalObjectInto Object.zero j), objectUnmarshalErr j, o.calls⟩

/-- DeleteObject of wrapper.go. -/
def DeleteObject (db : BucketDB) (bucketQuery objQuery : String) (now : Int)
    (renewWire reqWire : WireOutcome) : ErrOut :=
  let o := apiV1Request db now renewWire reqWire .DELETE
    ("/api/v1/objects/" ++ bucketQuery ++ "/" ++ objQuery) none none
  ⟨db, o.res.err, o.calls⟩

/-- UploadObjectContent of wrapper.go: POST a raw body stream, with an explicit
Content-Type header only when one was supplied. -/
def UploadObjectContent (db : BucketDB) (bucketQuery objQuery contentType : String)
    (body : Option Json) (now : Int) (renewWire reqWire : WireOutcome) : ErrOut :=
  let headers : Option Values :=
    if contentType = "" then none else some [("Content-Type", [contentType])]
  let o := apiV1Request db now renewWire reqWire .POST
    ("/api/v1/objects/" ++ bucketQuery ++ "/" ++ objQuery ++ "/upload") headers body
  ⟨db, o.res.err, o.calls⟩

/-- FetchPublicObjectContent of wrapper.go: a direct HTTP GET outside the
envelope pipeline; the Authorization bearer header is set unconditionally and the
raw response body stream is returned.  The oracle is the stream or a transport
error. -/
def FetchPublicObjectContent (db : BucketDB) (userQuery bucketQuery objQuery : String)
    (contentWire : Except String String) : OpOut String :=
  let call : NetCall :=
    { method := .GET
      url := db.host ++ "/api/v1/objects/" ++ userQuery ++ "/" ++ bucketQuery ++ "/"
        ++ objQuery ++ "/content"
      headers := [("Authorization", ["Bearer " ++ db.session.token])]
      hasBody := false }
  match contentWire with
  | .error e => ⟨db, none, some e, [call]⟩
  | .ok body => ⟨db, some body, none, [call]⟩

/-- FetchMyObjectContent of wrapper.go (pointer receiver): renew the stored
session in place when invalid (this renewal, unlike the one inside apiV1Request,
persists), then fetch via the public content endpoint under the stored
username. -/
def FetchMyObjectContent (db : BucketDB) (bucketQuery objQuery : String) (now : Int)
    (renewWire : WireOutcome) (contentWire : Except String String) : OpOut String :=
  if IsValidSession db now then
    FetchPublicObjectContent db db.username bucketQuery objQuery contentWire
  else
    let u := UpdateSession db renewWire
    match u.err with
    | some e => ⟨u.db, none, some e, u.calls⟩
    | none => FetchPublicObjectContent u.db u.db.username bucketQuery objQuery contentWire

/-- The Seekables constraint of seeker.go: an item shape (Bucket or Object) with
its zero value and its json.Unmarshal merge and error behaviour, enough to decode
a slice of items. -/
class SeekItem (α : Type) where
  zero : α
  unmarshalInto : α → Json → α
  unmarshalErr : Json → Option String

instance : SeekItem Bucket where
  zero := Bucket.zero
  unmarshalInto := unmarshalBucketInto
  unmarshalErr := bucketUnmarshalErr

instance : SeekItem Object where
  zero := Object.zero
  unmarshalInto := unmarshalObjectInto
  unmarshalErr := objectUnmarshalErr

/-- Decoded items of the seeker's json.Unmarshal into its generic slice type. -/
def seekItems (α : Type) [SeekItem α] (j : Json) : List α :=
  listUnmarshal (SeekItem.zero) (SeekItem.unmarshalInto) j

/-- Decode error of the seeker's json.Unmarshal into its generic slice type. -/
def seekItemsErr (α : Type) [SeekItem α] (j : Json) : Option String :=
  listUnmarshalErr (SeekItem.unmarshalErr (α := α)) j

/-- The seeker struct of seeker.go.  The db field is a pointer to the shared
BucketDB; the seeker path never mutates anything through it (apiV1Request has a
value receiver), so it is carried as a value here.  The mutex is omitted.  The
cache map[int]T is an association list with unique keys. -/
structure Seeker (α : Type) where
  db : BucketDB
  lastAccessed : Int := 0
  lastFetched : Int := 0
  limit : Int := 10
  offset : Int := 0
  cache : List (Int × List α) := []
  endpoint : String
  params : Option Values := none

/-- Cache map lookup. -/
def cacheLookup (c : List (Int × List α)) (k : Int) : Option (List α) :=
  match c with
  | [] => none
  | (k₂, v) :: rest => if k₂ = k then some v else cacheLookup rest k

/-- Cache map write. -/
def cacheInsert (c : List (Int × List α)) (k : Int) (v : List α) : List (Int × List α) :=
  match c with
  | [] => [(k, v)]
  | (k₂, v₂) :: rest => if k₂ = k then (k, v) :: rest else (k₂, v₂) :: cacheInsert rest k v

/-- SetParams of seeker.go: replace the fixed parameter set (no copy is taken:
the seeker aliases the caller's map from here on). -/
def SetParams (s : Seeker α) (params : Values) : Seeker α :=
  { s with params := some params }

/-- GetCache of seeker.go. -/
def GetCache (s : Seeker α) : List (Int × List α) := s.cache

/-- GetOffset of seeker.go. -/
def GetOffset (s : Seeker α) : Int := s.offset

/-- GetLimit of seeker.go. -/
def GetLimit (s : Seeker α) : Int := s.limit

/-- Seek of seeker.go: reposition the cursor, cache untouched. -/
def Seek (s : Seeker α) (offset : Int) : Seeker α :=
  { s with offset := offset }

/-- Clear of seeker.go: drop the cache, keep limit and offset. -/
def Clear (s : Seeker α) : Seeker α :=
  { s with cache := [] }

/-- SetLimit of seeker.go: store the given window size, with no validation. -/
def SetLimit (s : Seeker α) (limit : Int) : Seeker α :=
  { s with limit := limit }

/-- The effective limit sent on the wire: limit - offset % limit with Go's
truncated remainder (only meaningful when limit is non-zero; at limit = 0 the Go
expression panics before this value exists). -/
def wireLimit (limit offset : Int) : Int :=
  limit - offset.tmod limit

/-- The query parameters loadData sends: the stored fixed set (or a fresh empty
one) with the limit and offset keys overwritten. -/
def loadDataParams (s : Seeker α) : Values :=
  valuesSet (valuesSet (s.params.getD []) "limit" (toString (wireLimit s.limit s.offset)))
    "offset" (toString s.offset)

/-- Result of a seeker fetch: the updated seeker, the Go (data, err) pair and the
executed calls. -/
structure SeekOut (α : Type) where
  s : Seeker α
  data : List α
  err : Option String
  calls : List NetCall

/-- The request-and-decode tail of loadData (lines 123 to 140 of seeker.go),
acting on the seeker state as it stands after the parameter mutation: issue the
GET through the pipeline, return pipeline errors with the zero slice, decode the
payload into the item slice, cache a non-empty decoded result under the
pre-fetch offset. -/
def loadDataFetch (α : Type) [SeekItem α] (s₂ : Seeker α) (ps : Values) (now : Int)
    (renewWire reqWire : WireOutcome) : GoOutcome (SeekOut α) :=
  let o := apiV1Request s₂.db now renewWire reqWire .GET
    (s₂.endpoint ++ "?" ++ valuesEncode ps) none none
  match o.res.err with
  | some e => .ok ⟨s₂, [], some e, o.calls⟩
  | none =>
    let j := o.res.data.getD .null
    match seekItemsErr α j with
    | some e => .ok ⟨s₂, seekItems α j, some e, o.calls⟩
    | none =>
      if 0 < (seekItems α j).length then
        .ok ⟨{ s₂ with cache := cacheInsert s₂.cache s₂.offset (seekItems α j) },
          seekItems α j, none, o.calls⟩
      else
        .ok ⟨s₂, seekItems α j, none, o.calls⟩

/-- loadData of seeker.go: stamp lastFetched, panic on the modulo-by-zero when
limit = 0, build the wire parameters on the stored fixed set itself when one
exists (params = s.params aliases the map, so the two Set calls mutate the
stored set in place; only when s.params is nil is a fresh empty map used), then
run the fetch tail. -/
def loadData (α : Type) [SeekItem α] (s : Seeker α) (now : Int)
    (renewWire reqWire : WireOutcome) : GoOutcome (SeekOut α) :=
  let s₁ : Seeker α := { s with lastFetched := now }
  if s₁.limit = 0 then .panic "runtime error: integer divide by zero"
  else
    match s₁.params with
    | none => loadDataFetch α s₁ (loadDataParams s₁) now renewWire reqWire
    | some _ =>
      loadDataFetch α { s₁ with params := some (loadDataParams s₁) } (loadDataParams s₁)
        now renewWire reqWire

/-- Next of seeker.go: fetch, propagate errors, signal exhaustion on an empty
result, advance the offset by the number of items otherwise. -/
def Next (α : Type) [SeekItem α] (s : Seeker α) (now : Int)
    (renewWire reqWire : WireOutcome) : GoOutcome (SeekOut α) :=
  match loadData α s now renewWire reqWire with
  | .panic m => .panic m
  | .ok o =>
    match o.err with
    | some _ => .ok o
    | none =>
      if o.data.length < 1 then .ok ⟨o.s, o.data, some "no more data to load", o.calls⟩
      else .ok ⟨{ o.s with offset := o.s.offset + o.data.length }, o.data, o.err, o.calls⟩

/-- GetData of seeker.go: stamp lastAccessed, return the entry cached under the
current offset when there is one (no network activity), delegate to Next
otherwise. -/
def GetData (α : Type) [SeekItem α] (s : Seeker α) (now : Int)
    (renewWire reqWire : WireOutcome) : GoOutcome (SeekOut α) :=
  let s₁ : Seeker α := { s with lastAccessed := now }
  match cacheLookup s₁.cache s₁.offset with
  | some d => .ok ⟨s₁, d, none, []⟩
  | none => Next α s₁ now renewWire reqWire

/-- newSeekable of seeker.go: bound to one db and endpoint, limit 10, offset 0,
empty cache, the caller's fixed params (possibly nil). -/
def newSeekable (α : Type) [SeekItem α] (db : BucketDB) (endpoint : String)
    (params : Option Values) : Seeker α :=
  { db := db, limit := 10, offset := 0, cache := [], endpoint := endpoint, params := params }

/-! Helper lemmas shared by the claim proofs. -/

theorem valuesGet_set_self (vs : Values) (k v : String) :
    valuesGet (valuesSet vs k v) k = some [v] := by
  induction vs with
  | nil => simp [valuesSet, valuesGet]
  | cons kv rest ih =>
    obtain ⟨k₂, v₂⟩ := kv
    by_cases h : k₂ = k <;> simp [valuesSet, valuesGet, h, ih]

theorem valuesGet_set_other (vs : Values) (k k₂ v : String) (h : k ≠ k₂) :
    valuesGet (valuesSet vs k v) k₂ = valuesGet vs k₂ := by
  induction vs with
  | nil => simp [valuesSet, valuesGet, h]
  | cons kv rest ih =>
    obtain ⟨k₃, v₃⟩ := kv
    by_cases h₃ : k₃ = k
    · subst h₃; simp [valuesSet, valuesGet, h]
    · simp [valuesSet, valuesGet, h₃, ih]

theorem cacheLookup_insert_self (c : List (Int × List α)) (k : Int) (v : List α) :
    cacheLookup (cacheInsert c k v) k = some v := by
  induction c with
  | nil => simp [cacheInsert, cacheLookup]
  | cons kv rest ih =>
    obtain ⟨k₂, v₂⟩ := kv
    by_cases h : k₂ = k <;> simp [cacheInsert, cacheLookup, h, ih]

theorem apiV1RequestGeneric_calls (db : BucketDB) (wire : WireOutcome)
    (method : RequestMethod) (endpoint : String) (headers : Option Values)
    (body : Option Json) :
    (apiV1RequestGeneric db wire method endpoint headers body).calls =
      [genericNetCall db method endpoint headers body] := by
  cases wire with
  | transportErr e => rfl
  | readErr e => rfl
  | decodeErr e => rfl
  | envelope res =>
    simp only [apiV1RequestGeneric]
    split
    · rfl
    · split <;> rfl

theorem updateSession_host (db : BucketDB) (wire : WireOutcome) :
    (UpdateSession db wire).db.host = db.host := by
  simp only [UpdateSession]
  split <;> rfl

theorem updateSession_traceback (db : BucketDB) (wire : WireOutcome) :
    (UpdateSession db wire).db.traceback = db.traceback := by
  simp only [UpdateSession]
  split <;> rfl

theorem updateSession_calls (db : BucketDB) (wire : WireOutcome) :
    (UpdateSession db wire).calls =
      [genericNetCall db .POST "/api/v1/session" none (some (credsJson db))] := by
  have h := apiV1RequestGeneric_calls db wire .POST "/api/v1/session" none
    (some (credsJson db))
  simp only [UpdateSession]
  split <;> exact h

theorem apiV1Request_calls (db : BucketDB) (now : Int) (renewWire reqWire : WireOutcome)
    (method : RequestMethod) (endpoint : String) (headers : Option Values)
    (body : Option Json) :
    ∀ c ∈ (apiV1Request db now renewWire reqWire method endpoint headers body).calls,
      c.url = db.host ++ "/api/v1/session" ∨ c.url = db.host ++ endpoint := by
  intro c hc
  simp only [apiV1Request] at hc
  split at hc
  · rw [apiV1RequestGeneric_calls] at hc
    simp at hc
    subst hc
    right
    rfl
  · split at hc
    · rw [updateSession_calls] at hc
      simp at hc
      subst hc
      left
      rfl
    · rw [List.mem_append, updateSession_calls, apiV1RequestGeneric_calls] at hc
      rcases hc with hc | hc <;> simp at hc <;> subst hc
      · left
        rfl
      · right
        simp [genericNetCall, updateSession_host]

theorem loadDataFetch_cases (α : Type) [SeekItem α] (s₂ : Seeker α) (ps : Values)
    (now : Int) (rw qw : WireOutcome) (o : SeekOut α)
    (h : loadDataFetch α s₂ ps now rw qw = .ok o) :
    o.s.offset = s₂.offset ∧ o.s.limit = s₂.limit ∧ o.s.endpoint = s₂.endpoint ∧
    o.s.db = s₂.db ∧ o.s.lastAccessed = s₂.lastAccessed ∧
    o.s.lastFetched = s₂.lastFetched ∧ o.s.params = s₂.params ∧
    (o.err = none → 0 < o.data.length →
      o.s.cache = cacheInsert s₂.cache s₂.offset o.data) ∧
    (o.err = none → o.data.length = 0 → o.s.cache = s₂.cache) ∧
    (o.err.isSome = true → o.s.cache = s₂.cache) ∧
    o.calls = (apiV1Request s₂.db now rw qw .GET
      (s₂.endpoint ++ "?" ++ valuesEncode ps) none none).calls := by
  simp only [loadDataFetch] at h
  split at h
  · injection h with h₂
    subst h₂
    exact ⟨rfl, rfl, rfl, rfl, rfl, rfl, rfl,
      fun h₁ => absurd h₁ (by simp), fun h₁ => absurd h₁ (by simp), fun _ => rfl, rfl⟩
  · split at h
    · injection h with h₂
      subst h₂
      exact ⟨rfl, rfl, rfl, rfl, rfl, rfl, rfl,
        fun h₁ => absurd h₁ (by simp), fun h₁ => absurd h₁ (by simp), fun _ => rfl, rfl⟩
    · split at h
      · rename_i hlen
        injection h with h₂
        subst h₂
        refine ⟨rfl, rfl, rfl, rfl, rfl, rfl, rfl, fun _ _ => rfl, ?_, ?_, rfl⟩
        · intro _ h₀
          simp only [SeekOut.data] at h₀
          omega
        · intro hs
          simp at hs
      · rename_i hlen
        injection h with h₂
        subst h₂
        refine ⟨rfl, rfl, rfl, rfl, rfl, rfl, rfl, ?_, fun _ _ => rfl, ?_, rfl⟩
        · intro _ h₀
          simp only [SeekOut.data] at h₀
          omega
        · intro hs
          simp at hs

theorem loadData_cases (α : Type) [SeekItem α] (s : Seeker α) (now : Int)
    (rw qw : WireOutcome) (o : SeekOut α) (h : loadData α s now rw qw = .ok o) :
    s.limit ≠ 0 ∧
    o.s.offset = s.offset ∧ o.s.limit = s.limit ∧ o.s.endpoint = s.endpoint ∧
    o.s.db = s.db ∧ o.s.lastAccessed = s.lastAccessed ∧
    (s.params = none → o.s.params = none) ∧
    (s.params.isSome = true → o.s.params = some (loadDataParams s)) ∧
    (o.err = none → 0 < o.data.length →
      o.s.cache = cacheInsert s.cache s.offset o.data) ∧
    (o.err = none → o.data.length = 0 → o.s.cache = s.cache) ∧
    (o.err.isSome = true → o.s.cache = s.cache) ∧
    o.calls = (apiV1Request s.db now rw qw .GET
      (s.endpoint ++ "?" ++ valuesEncode (loadDataParams s)) none none).calls := by
  simp only [loadData] at h
  split at h
  · exact absurd h (by simp)
  · rename_i hl
    split at h
    · rename_i hp
      have hp₂ : s.params = none := hp
      obtain ⟨hoff, hlim, hep, hdb, hla, _, hpar, hc₁, hc₂, hc₃, hcalls⟩ :=
        loadDataFetch_cases α _ _ now rw qw o h
      exact ⟨hl, hoff, hlim, hep, hdb, hla, fun _ => hpar.trans hp₂,
        fun hsome => absurd hsome (by simp [hp₂]), hc₁, hc₂, hc₃, hcalls⟩
    · rename_i ps hp
      have hp₂ : s.params = some ps := hp
      obtain ⟨hoff, hlim, hep, hdb, hla, _, hpar, hc₁, hc₂, hc₃, hcalls⟩ :=
        loadDataFetch_cases α _ _ now rw qw o h
      exact ⟨hl, hoff, hlim, hep, hdb, hla,
        fun hnone => absurd (hp₂.symm.trans hnone) (by simp),
        fun _ => hpar, hc₁, hc₂, hc₃, hcalls⟩

/-! Claim C2: envelope precedence. -/

/-- C2: for every decoded response envelope, success=false yields an error built
from msg and err regardless of the err field's value; success=true with a
non-empty err string also yields an error built from msg and err; and only
success=true with err="" returns the re-serialized data field with no error. -/
theorem envelope_precedence (db : BucketDB) (res : APIV1Response)
    (method : RequestMethod) (endpoint : String) (headers : Option Values)
    (body : Option Json) :
    (res.success = false →
      (apiV1RequestGeneric db (.envelope res) method endpoint headers body).res.err =
        some ("failed: " ++ res.msg ++ " (" ++ res.err ++ ")")) ∧
    (res.success = true → res.err ≠ "" →
      (apiV1RequestGeneric db (.envelope res) method endpoint headers body).res.err =
        some (res.msg ++ " (err: " ++ res.err ++ ")")) ∧
    (res.success = true → res.err = "" →
      (apiV1RequestGeneric db (.envelope res) method endpoint headers body).res =
        ⟨some res.data, none⟩) := by
  refine ⟨fun h₁ => ?_, fun h₁ h₂ => ?_, fun h₁ h₂ => ?_⟩
  · simp [apiV1RequestGeneric, h₁]
  · simp [apiV1RequestGeneric, h₁, h₂]
  · simp [apiV1RequestGeneric, h₁, h₂]

/-- Witness for C2 at three concrete envelopes. -/
theorem envelope_precedence_witness :
    (apiV1RequestGeneric {} (.envelope { success := false, msg := "boom", err := "x" })
      .GET "/e" none none).res.err = some "failed: boom (x)" ∧
    (apiV1RequestGeneric {} (.envelope { success := true, msg := "m", err := "soft" })
      .GET "/e" none none).res.err = some "m (err: soft)" ∧
    (apiV1RequestGeneric {} (.envelope { success := true, data := .num 5 })
      .GET "/e" none none).res = ⟨some (.num 5), none⟩ :=
  ⟨(envelope_precedence {} _ .GET "/e" none none).1 rfl,
   (envelope_precedence {} _ .GET "/e" none none).2.1 rfl (by decide),
   (envelope_precedence {} _ .GET "/e" none none).2.2 rfl rfl⟩

/-! Claim C3: session gating. -/

/-- C3: apiV1Request attempts a renewal exactly when the current instant is at or
past the stored expiry (the boundary instant counts as expired, since validity is
the strict now < expiry); and when the renewal errors, that error is returned,
the performed calls are exactly the renewal's single POST to the session
endpoint, and the transport call for the requested endpoint is never made. -/
theorem request_gating (db : BucketDB) (now : Int) (renewWire reqWire : WireOutcome)
    (method : RequestMethod) (endpoint : String) (headers : Option Values)
    (body : Option Json) :
    ((apiV1Request db now renewWire reqWire method endpoint headers body).renewed = true ↔
      db.session.expiry ≤ now) ∧
    (∀ e, db.session.expiry ≤ now → (UpdateSession db renewWire).err = some e →
      apiV1Request db now renewWire reqWire method endpoint headers body =
        ⟨⟨none, some e⟩,
         [genericNetCall db .POST "/api/v1/session" none (some (credsJson db))], true⟩) ∧
    (db.session.expiry ≤ now → (UpdateSession db renewWire).err = none →
      (apiV1Request db now renewWire reqWire method endpoint headers body).calls =
        [genericNetCall db .POST "/api/v1/session" none (some (credsJson db))] ++
        [genericNetCall (UpdateSession db renewWire).db method endpoint headers body]) ∧
    (now < db.session.expiry →
      apiV1Request db now renewWire reqWire method endpoint headers body =
        ⟨(apiV1RequestGeneric db reqWire method endpoint headers body).res,
         [genericNetCall db method endpoint headers body], false⟩) := by
  by_cases hv : now < db.session.expiry
  · refine ⟨?_, ?_, ?_, ?_⟩
    · simp [apiV1Request, IsValidSession, hv]
    · intro e he
      omega
    · intro he
      omega
    · intro _
      simp [apiV1Request, IsValidSession, hv, apiV1RequestGeneric_calls]
  · refine ⟨?_, ?_, ?_, ?_⟩
    · simp only [apiV1Request, IsValidSession]
      rw [if_neg (by simpa using hv)]
      cases hu : (UpdateSession db renewWire).err <;> simp [hu] <;> omega
    · intro e _ hu
      simp only [apiV1Request, IsValidSession]
      rw [if_neg (by simpa using hv), hu]
      simp [updateSession_calls]
    · intro _ hu
      simp only [apiV1Request, IsValidSession]
      rw [if_neg (by simpa using hv), hu]
      simp [updateSession_calls, apiV1RequestGeneric_calls]
    · intro hlt
      exact absurd hlt hv

/-- Witness for C3: a concrete expired state whose renewal envelope reports
failure, and a concrete valid state. -/
theorem request_gating_witness :
    apiV1Request { host := "h", session := { expiry := 0 } } 5
        (.envelope { success := false, msg := "bad" }) (.envelope {}) .GET "/x" none none =
      ⟨⟨none, some "failed: bad ()"⟩,
       [⟨.POST, "h/api/v1/session", [("Content-Type", ["application/json"])], true⟩],
       true⟩ ∧
    ((apiV1Request { host := "h", session := { expiry := 0 } } 5
        (.envelope { success := false, msg := "bad" }) (.envelope {}) .GET "/x" none
        none).renewed = true ↔ (0 : Int) ≤ 5) ∧
    apiV1Request { host := "h", session := { expiry := 7 } } 5
        (.envelope { success := false, msg := "bad" }) (.envelope { success := true })
        .GET "/x" none none =
      ⟨⟨some .null, none⟩, [⟨.GET, "h/x", [], false⟩], false⟩ :=
  ⟨(request_gating { host := "h", session := { expiry := 0 } } 5 _ _ .GET "/x" none
      none).2.1 _ (by decide) rfl,
   (request_gating { host := "h", session := { expiry := 0 } } 5 _ _ .GET "/x" none
      none).1,
   (request_gating { host := "h", session := { expiry := 7 } } 5 _ _ .GET "/x" none
      none).2.2.2 (by decide)⟩

/-! Claim C1: session renewal replacement. -/

/-- Concrete state for the C1 counterexample: a stored session with a non-zero
token that a successful renewal whose data carries no token field leaves in
place. -/
def dbC1 : BucketDB :=
  { host := "h", username := "u", password := "p",
    session := { token := "t0", issuedAt := 1, subject := 2, expiry := 3 } }

/-- C1 counterexample.  First conjunct pair: a renewal whose envelope reports
success with data equal to the empty JSON object succeeds (err = none), yet the
stored session still carries the old token t0 — json.Unmarshal merges into the
existing struct, so fields of the old session survive and the session is not
replaced wholesale with the returned data (whose token is the zero value).
Second conjunct: with an expired stored session (expiry 0 at instant 5), a Me
call whose renewal envelope returns a fresh expiry of 99 still leaves the caller
visible session expiry at 0, because apiV1Request has a value receiver and its
renewal mutates only a copy — the replacement is not visible to subsequent
requests on the same Pipeline. -/
theorem updateSession_counterexample :
    ((UpdateSession dbC1 (.envelope { success := true, data := .obj [] })).err = none ∧
     (UpdateSession dbC1 (.envelope { success := true, data := .obj [] })).db.session.token
       = "t0") ∧
    (Me { host := "h", session := { token := "t0", expiry := 0 } } 5
        (.envelope
          { success := true, data := .obj [("token", .str "t1"), ("expiry", .num 99)] })
        (.envelope { success := true, data := .obj [("username", .str "n")] })
      ).db.session.expiry = 0 :=
  ⟨⟨rfl, rfl⟩, rfl⟩

/-- C1 amended: on any renewal-request error (transport, decode, or an envelope
indicating failure) UpdateSession returns that error and the state, session
included, is completely untouched; on a successful envelope the returned data is
merged field-by-field into the stored session (fields present in the data
replace the old values, absent fields survive), the rest of the state is
unchanged, and the returned error is the one the data decode reports. -/
theorem updateSession_spec (db : BucketDB) (wire : WireOutcome) :
    (∀ e, (apiV1RequestGeneric db wire .POST "/api/v1/session" none
        (some (credsJson db))).res.err = some e →
      UpdateSession db wire =
        ⟨db, some e, [genericNetCall db .POST "/api/v1/session" none
          (some (credsJson db))]⟩) ∧
    (∀ res, wire = .envelope res → res.success = true → res.err = "" →
      UpdateSession db wire =
        ⟨{ db with session := unmarshalSessionInto db.session res.data },
         sessionUnmarshalErr res.data,
         [genericNetCall db .POST "/api/v1/session" none (some (credsJson db))]⟩) := by
  constructor
  · intro e he
    simp only [UpdateSession]
    rw [he]
    rw [← apiV1RequestGeneric_calls db wire .POST "/api/v1/session" none
      (some (credsJson db))]
  · intro res hw h₁ h₂
    subst hw
    simp [UpdateSession, apiV1RequestGeneric, h₁, h₂]

/-- Witness for C1: the amended theorem applied at a failing and at a successful
concrete renewal. -/
theorem updateSession_spec_witness :
    UpdateSession dbC1 (.envelope { success := false, msg := "no" }) =
      ⟨dbC1, some "failed: no ()",
       [genericNetCall dbC1 .POST "/api/v1/session" none (some (credsJson dbC1))]⟩ ∧
    UpdateSession dbC1 (.envelope { success := true, data := .obj [("token", .str "t1")] }) =
      ⟨{ dbC1 with
          session := unmarshalSessionInto dbC1.session (.obj [("token", .str "t1")]) },
       sessionUnmarshalErr (.obj [("token", .str "t1")]),
       [genericNetCall dbC1 .POST "/api/v1/session" none (some (credsJson dbC1))]⟩ :=
  ⟨(updateSession_spec dbC1 _).1 _ rfl,
   (updateSession_spec dbC1 _).2 _ rfl rfl rfl⟩

/-! Claim C8: session frame effect of the non-renewal operations. -/

/-- Concrete state for the C8 counterexample: a valid session whose nested user
is overwritten by a Me call. -/
def dbC8 : BucketDB :=
  { host := "h",
    session := { token := "tk", issuedAt := 4, subject := 7, expiry := 10,
                 user := { username := "old" } } }

/-- C8 counterexample: Me is not the renewal operation, its session is valid at
instant 0 (so no renewal runs at all), and yet the call changes the stored
session: session.user.username goes from old to new, refuting that only the
renewal operation mutates session state. -/
theorem session_frame_counterexample :
    (Me dbC8 0 (.envelope {})
        (.envelope { success := true, data := .obj [("username", .str "new")] })
      ).db.session.user.username = "new" ∧
    dbC8.session.user.username = "old" :=
  ⟨rfl, rfl⟩

/-- C8 amended: every bucket, object and content-upload operation, and the public
content fetch, leave the whole state (session included) unchanged; Me and
UpdateMe preserve every session field except the nested user, which they
overwrite with the decoded response on success; FetchMyObjectContent leaves the
state unchanged whenever the stored session is still valid (when it is expired
it renews the stored session in place, being built directly on the
pointer-receiver renewal). -/
theorem session_frame_spec (db : BucketDB) (now : Int) (rw qw : WireOutcome)
    (b : Bucket) (ob : Object) (q₁ q₂ q₃ ct : String) (ps : Values) (u : User)
    (body : Option Json) (cw : Except String String) :
    (CreateBucket db b now rw qw).db = db ∧
    (GetMyBucket db q₁ now rw qw).db = db ∧
    (GetMyBuckets db ps now rw qw).db = db ∧
    (GetPublicBucket db q₁ q₂ now rw qw).db = db ∧
    (GetPublicBuckets db q₁ ps now rw qw).db = db ∧
    (UpdateBucket db q₁ b now rw qw).db = db ∧
    (DeleteBucket db q₁ now rw qw).db = db ∧
    (CreateObject db q₁ ob now rw qw).db = db ∧
    (GetMyObject db q₁ q₂ now rw qw).db = db ∧
    (GetMyObjects db q₁ ps now rw qw).db = db ∧
    (GetPublicObject db q₁ q₂ q₃ now rw qw).db = db ∧
    (GetPublicObjects db q₁ q₂ ps now rw qw).db = db ∧
    (UpdateObject db q₁ q₂ ob now rw qw).db = db ∧
    (DeleteObject db q₁ q₂ now rw qw).db = db ∧
    (UploadObjectContent db q₁ q₂ ct body now rw qw).db = db ∧
    (FetchPublicObjectContent db q₁ q₂ q₃ cw).db = db ∧
    (now < db.session.expiry → (FetchMyObjectContent db q₁ q₂ now rw cw).db = db) ∧
    (db.session.expiry ≤ now →
      (FetchMyObjectContent db q₁ q₂ now rw cw).db = (UpdateSession db rw).db) ∧
    ((Me db now rw qw).db.session.token = db.session.token ∧
     (Me db now rw qw).db.session.issuedAt = db.session.issuedAt ∧
     (Me db now rw qw).db.session.subject = db.session.subject ∧
     (Me db now rw qw).db.session.expiry = db.session.expiry ∧
     ((Me db now rw qw).err = none →
       (Me db now rw qw).db.session.user = unmarshalUserInto User.zero
         ((apiV1Request db now rw qw .GET "/api/v1/users/@me" none
           none).res.data.getD .null))) ∧
    ((UpdateMe db u now rw qw).db.session.token = db.session.token ∧
     (UpdateMe db u now rw qw).db.session.issuedAt = db.session.issuedAt ∧
     (UpdateMe db u now rw qw).db.session.subject = db.session.subject ∧
     (UpdateMe db u now rw qw).db.session.expiry = db.session.expiry ∧
     ((UpdateMe db u now rw qw).err = none →
       (UpdateMe db u now rw qw).db.session.user = unmarshalUserInto User.zero
         ((apiV1Request db now rw qw .PUT "/api/v1/users/@me" none
           (some (marshalUser u))).res.data.getD .null))) := by
  refine ⟨?_, ?_, ?_, ?_, ?_, ?_, ?_, ?_, ?_, ?_, ?_, ?_, ?_, ?_, ?_, ?_, ?_, ?_, ?_, ?_⟩
  · simp only [CreateBucket]
    split <;> rfl
  · simp only [GetMyBucket]
    split <;> rfl
  · simp only [GetMyBuckets]
    split <;> rfl
  · simp only [GetPublicBucket]
    split <;> rfl
  · simp only [GetPublicBuckets]
    split <;> rfl
  · simp only [UpdateBucket]
    split <;> rfl
  · rfl
  · simp only [CreateObject]
    split <;> rfl
  · simp only [GetMyObject]
    split <;> rfl
  · simp only [GetMyObjects]
    split <;> rfl
  · simp only [GetPublicObject]
    split <;> rfl
  · simp only [GetPublicObjects]
    split <;> rfl
  · simp only [UpdateObject]
    split <;> rfl
  · rfl
  · rfl
  · simp only [FetchPublicObjectContent]
    split <;> rfl
  · intro hv
    simp only [FetchMyObjectContent, IsValidSession]
    rw [if_pos (by simpa using hv)]
    simp only [FetchPublicObjectContent]
    split <;> rfl
  · intro hexp
    simp only [FetchMyObjectContent, IsValidSession]
    rw [if_neg (by simp only [decide_eq_true_eq]; omega)]
    split
    · rfl
    · simp only [FetchPublicObjectContent]
      split <;> rfl
  · cases h₁ : (apiV1Request db now rw qw .GET "/api/v1/users/@me" none none).res.err with
    | some e => simp [Me, h₁]
    | none =>
      cases h₂ : userUnmarshalErr ((apiV1Request db now rw qw .GET "/api/v1/users/@me"
          none none).res.data.getD .null) with
      | some e => simp [Me, h₁, h₂]
      | none => simp [Me, h₁, h₂]
  · cases h₁ : (apiV1Request db now rw qw .PUT "/api/v1/users/@me" none
        (some (marshalUser u))).res.err with
    | some e => simp [UpdateMe, h₁]
    | none =>
      cases h₂ : userUnmarshalErr ((apiV1Request db now rw qw .PUT "/api/v1/users/@me"
          none (some (marshalUser u))).res.data.getD .null) with
      | some e => simp [UpdateMe, h₁, h₂]
      | none => simp [UpdateMe, h₁, h₂]

/-- Witness for C8 at concrete states and wires: a bucket read and a valid-session
content fetch leave the state unchanged; an expired-session content fetch ends in
the renewed state (here the stored expiry becomes the 99 the renewal returned);
a successful Me overwrites the stored session user with the decoded response. -/
theorem session_frame_spec_witness :
    (GetMyBucket dbC8 "b" 0 (.envelope {}) (.envelope {})).db = dbC8 ∧
    (FetchMyObjectContent dbC8 "b" "o" 0 (.envelope {}) (.ok "bytes")).db = dbC8 ∧
    (FetchMyObjectContent dbC1 "b" "o" 5
        (.envelope { success := true, data := .obj [("expiry", .num 99)] })
        (.ok "bytes")).db =
      (UpdateSession dbC1
        (.envelope { success := true, data := .obj [("expiry", .num 99)] })).db ∧
    (Me dbC8 0 (.envelope {})
        (.envelope { success := true, data := .obj [("username", .str "new")] })
      ).db.session.user =
      unmarshalUserInto User.zero (.obj [("username", .str "new")]) := by
  refine ⟨?_, ?_, ?_, ?_⟩
  · exact (session_frame_spec dbC8 0 (.envelope {}) (.envelope {}) {} {} "b" "o" "q"
      "" [] {} none (.ok "bytes")).2.1
  · exact (session_frame_spec dbC8 0 (.envelope {}) (.envelope {}) {} {} "b" "o" "q"
      "" [] {} none (.ok "bytes")).2.2.2.2.2.2.2.2.2.2.2.2.2.2.2.2.1 (by decide)
  · exact (session_frame_spec dbC1 5
      (.envelope { success := true, data := .obj [("expiry", .num 99)] })
      (.envelope {}) {} {} "b" "o" "q" "" [] {} none
      (.ok "bytes")).2.2.2.2.2.2.2.2.2.2.2.2.2.2.2.2.2.1 (by decide)
  · exact (session_frame_spec dbC8 0 (.envelope {})
      (.envelope { success := true, data := .obj [("username", .str "new")] })
      {} {} "b" "o" "q" "" [] {} none
      (.ok "bytes")).2.2.2.2.2.2.2.2.2.2.2.2.2.2.2.2.2.2.1.2.2.2.2 (by rfl)

/-! Claim C9: error traceback recording. -/

/-- C9: the traceback list is in fact never appended to by the request pipeline.
For every envelope reporting failure the request operation returns an error, yet
the traceback of the state returned by the state-carrying operations is exactly
the input traceback; the Errorf helper — the only definition that appends to the
traceback — would record it, but no operation calls it. -/
theorem traceback_never_appended (db : BucketDB) (now : Int) (qw : WireOutcome)
    (res : APIV1Response) :
    (res.success = false →
      ((apiV1RequestGeneric db (.envelope res) .GET "/e" none none).res.err.isSome = true ∧
       (Me db now (.envelope res) qw).db.traceback = db.traceback ∧
       (Me db now qw (.envelope res)).db.traceback = db.traceback)) ∧
    (UpdateSession db (.envelope res)).db.traceback = db.traceback ∧
    (∀ m, (Errorf db m).1.traceback = db.traceback ++ [m]) := by
  refine ⟨fun h₁ => ⟨?_, ?_, ?_⟩, ?_, fun m => rfl⟩
  · simp [apiV1RequestGeneric, h₁]
  · simp only [Me]
    split
    · rfl
    · split <;> rfl
  · simp only [Me]
    split
    · rfl
    · split <;> rfl
  · exact updateSession_traceback db (.envelope res)

/-- Witness for C9: at a concrete failing envelope, the error is returned but the
traceback stays empty. -/
theorem traceback_never_appended_witness :
    ((apiV1RequestGeneric { host := "h" } (.envelope { success := false, msg := "boom" })
        .GET "/e" none none).res.err.isSome = true ∧
     (Me { host := "h" } 3 (.envelope { success := false, msg := "boom" })
        (.envelope {})).db.traceback = [] ∧
     (Me { host := "h" } 3 (.envelope {})
        (.envelope { success := false, msg := "boom" })).db.traceback = []) ∧
    (UpdateSession { host := "h" } (.envelope { success := false, msg := "boom" })
      ).db.traceback = [] ∧
    (Errorf { host := "h" } "boom").1.traceback = [] ++ ["boom"] :=
  ⟨(traceback_never_appended { host := "h" } 3 (.envelope {})
      { success := false, msg := "boom" }).1 rfl,
   (traceback_never_appended { host := "h" } 3 (.envelope {})
      { success := false, msg := "boom" }).2.1,
   (traceback_never_appended { host := "h" } 3 (.envelope {})
      { success := false, msg := "boom" }).2.2 "boom"⟩

/-! Concrete sample states shared by the seeker witnesses. -/

/-- A state whose session is valid at instant 0. -/
def dbOK : BucketDB := { host := "h", session := { expiry := 1 } }

/-- A fresh bucket seeker: limit 10, offset 0, no fixed params, empty cache. -/
def seekW : Seeker Bucket := { db := dbOK, endpoint := "/b" }

/-! Claim C5: Next advancement, caching and exhaustion. -/

/-- C5: for every Next call at offset O whose underlying fetch ran (no panic):
a successful fetch of N greater than zero items advances the offset to O plus N
and stores the items in the cache under the pre-fetch key O; a successful empty
fetch returns the exhaustion error with the offset still O and the cache
unchanged; a failed fetch leaves offset and cache unchanged. -/
theorem next_spec (α : Type) [SeekItem α] (s : Seeker α) (now : Int)
    (rw qw : WireOutcome) (o : SeekOut α) (h : loadData α s now rw qw = .ok o) :
    (o.err = none → 0 < o.data.length →
      Next α s now rw qw =
        .ok ⟨{ o.s with offset := s.offset + o.data.length }, o.data, none, o.calls⟩ ∧
      cacheLookup o.s.cache s.offset = some o.data) ∧
    (o.err = none → o.data = [] →
      Next α s now rw qw = .ok ⟨o.s, [], some "no more data to load", o.calls⟩ ∧
      o.s.offset = s.offset ∧ o.s.cache = s.cache) ∧
    (∀ e, o.err = some e →
      Next α s now rw qw = .ok o ∧ o.s.offset = s.offset ∧ o.s.cache = s.cache) := by
  obtain ⟨-, hoff, -, -, -, -, -, -, hc₁, hc₂, hc₃, -⟩ := loadData_cases α s now rw qw o h
  refine ⟨fun he hl => ⟨?_, ?_⟩, fun he hl => ⟨?_, hoff, ?_⟩, fun e he => ⟨?_, hoff, ?_⟩⟩
  · have hnl : ¬o.data.length < 1 := by omega
    simp [Next, h, he, hoff, hnl]
  · rw [hc₁ he hl]
    exact cacheLookup_insert_self s.cache s.offset o.data
  · simp [Next, h, he, hl]
  · exact hc₂ he (by simp [hl])
  · simp [Next, h, he]
  · exact hc₃ (by simp [he])

/-- Witness for C5: a concrete one-item fetch advances offset 0 to 1 and caches
the page under key 0. -/
theorem next_spec_witness :
    loadData Bucket seekW 0 (.envelope {})
        (.envelope { success := true, data := .arr [.obj [("bucket_id", .num 7)]] }) =
      .ok ⟨{ db := dbOK, endpoint := "/b", cache := [(0, [{ bucketID := 7 }])] },
           [{ bucketID := 7 }], none, [⟨.GET, "h/b?limit=10&offset=0", [], false⟩]⟩ ∧
    (Next Bucket seekW 0 (.envelope {})
        (.envelope { success := true, data := .arr [.obj [("bucket_id", .num 7)]] }) =
      .ok ⟨{ db := dbOK, endpoint := "/b", offset := 1,
             cache := [(0, [{ bucketID := 7 }])] },
           [{ bucketID := 7 }], none, [⟨.GET, "h/b?limit=10&offset=0", [], false⟩]⟩ ∧
     cacheLookup [(0, [({ bucketID := 7 } : Bucket)])] seekW.offset =
       some [{ bucketID := 7 }]) :=
  ⟨rfl,
   (next_spec Bucket seekW 0 (.envelope {})
      (.envelope { success := true, data := .arr [.obj [("bucket_id", .num 7)]] })
      ⟨{ db := dbOK, endpoint := "/b", cache := [(0, [{ bucketID := 7 }])] },
       [{ bucketID := 7 }], none, [⟨.GET, "h/b?limit=10&offset=0", [], false⟩]⟩
      (by rfl)).1 rfl (by decide)⟩

/-! Claim C6: GetData cache hit. -/

/-- C6: when the cache holds an entry under the current offset, GetData returns
exactly that entry with no error, performs no network call, and changes nothing
but the lastAccessed stamp (offset, limit, params and cache are untouched); it
delegates to Next exactly when no entry exists under the current offset. -/
theorem getData_cache_spec (α : Type) [SeekItem α] (s : Seeker α) (now : Int)
    (rw qw : WireOutcome) :
    (∀ d, cacheLookup s.cache s.offset = some d →
      GetData α s now rw qw = .ok ⟨{ s with lastAccessed := now }, d, none, []⟩) ∧
    (cacheLookup s.cache s.offset = none →
      GetData α s now rw qw = Next α { s with lastAccessed := now } now rw qw) := by
  constructor
  · intro d hd
    simp [GetData, hd]
  · intro hn
    simp [GetData, hn]

/-- A bucket seeker whose cache already holds a (shorter than a full window)
entry under the current offset 0. -/
def seekHit : Seeker Bucket :=
  { db := dbOK, endpoint := "/b", cache := [(0, [{ bucketID := 7 }])] }

/-- Witness for C6: a concrete cache hit with zero calls, and a concrete miss
delegating to Next. -/
theorem getData_cache_spec_witness :
    GetData Bucket seekHit 5 (.envelope {}) (.envelope {}) =
      .ok ⟨{ db := dbOK, endpoint := "/b", cache := [(0, [{ bucketID := 7 }])],
             lastAccessed := 5 }, [{ bucketID := 7 }], none, []⟩ ∧
    GetData Bucket seekW 5 (.envelope {}) (.envelope {}) =
      Next Bucket { db := dbOK, endpoint := "/b", lastAccessed := 5 } 5
        (.envelope {}) (.envelope {}) :=
  ⟨(getData_cache_spec Bucket seekHit 5 (.envelope {}) (.envelope {})).1 _ rfl,
   (getData_cache_spec Bucket seekW 5 (.envelope {}) (.envelope {})).2 rfl⟩

/-! Claim C4: the wire limit value. -/

/-- A bucket seeker repositioned by Seek to the negative offset -5. -/
def seekNeg : Seeker Bucket := Seek { db := dbOK, endpoint := "/b" } (-5)

/-- C4 counterexample: at limit 10 and offset -5 (reachable by Seek, which
performs no validation), the fetch issued by the seeker carries the wire limit
15 = 10 - ((-5) tmod 10), which is outside the range [1, 10] — and also differs
from 10 - ((-5) mod 10) = 5 under the mathematical (floor) modulus. -/
theorem wire_limit_counterexample :
    valuesGet (loadDataParams seekNeg) "limit" = some ["15"] ∧
    loadData Bucket seekNeg 0 (.envelope {}) (.envelope { success := true }) =
      .ok ⟨{ db := dbOK, offset := -5, endpoint := "/b" }, [], none,
           [⟨.GET, "h/b?limit=15&offset=-5", [], false⟩]⟩ ∧
    ¬(1 ≤ wireLimit 10 (-5) ∧ wireLimit 10 (-5) ≤ 10) :=
  ⟨rfl, rfl, by decide⟩

/-- C4 amended: for limit L at least 1 and offset O at least 0, the limit query
parameter sent by the fetch equals L - (O % L) (where Go's truncated remainder
coincides with the mathematical modulus), it lies in [1, L], and every call the
fetch performs is either the session renewal POST or the data request carrying
exactly these parameters. -/
theorem wire_limit_spec (α : Type) [SeekItem α] (s : Seeker α) (now : Int)
    (rw qw : WireOutcome) (h₁ : 1 ≤ s.limit) (h₂ : 0 ≤ s.offset) :
    valuesGet (loadDataParams s) "limit" = some [toString (wireLimit s.limit s.offset)] ∧
    1 ≤ wireLimit s.limit s.offset ∧ wireLimit s.limit s.offset ≤ s.limit ∧
    wireLimit s.limit s.offset = s.limit - s.offset % s.limit ∧
    (∀ o, loadData α s now rw qw = .ok o → ∀ c ∈ o.calls,
      c.url = s.db.host ++ "/api/v1/session" ∨
      c.url = s.db.host ++ (s.endpoint ++ "?" ++ valuesEncode (loadDataParams s))) := by
  have hmod0 : 0 ≤ s.offset.tmod s.limit := Int.tmod_nonneg s.limit h₂
  have hmod1 : s.offset.tmod s.limit < s.limit := Int.tmod_lt_of_pos s.offset (by omega)
  refine ⟨?_, ?_, ?_, ?_, ?_⟩
  · simp only [loadDataParams]
    rw [valuesGet_set_other _ "offset" "limit" _ (by decide), valuesGet_set_self]
  · simp only [wireLimit]
    omega
  · simp only [wireLimit]
    omega
  · simp only [wireLimit, Int.tmod_eq_emod h₂ (by omega : (0 : Int) ≤ s.limit)]
  · intro o ho c hc
    obtain ⟨-, -, -, -, -, -, -, -, -, -, -, hcalls⟩ := loadData_cases α s now rw qw o ho
    rw [hcalls] at hc
    exact apiV1Request_calls s.db now rw qw .GET _ none none c hc

/-- Witness for C4 at the fresh seeker (limit 10, offset 0). -/
theorem wire_limit_spec_witness :
    valuesGet (loadDataParams seekW) "limit" =
      some [toString (wireLimit seekW.limit seekW.offset)] ∧
    1 ≤ wireLimit seekW.limit seekW.offset ∧
    wireLimit seekW.limit seekW.offset ≤ seekW.limit :=
  ⟨(wire_limit_spec Bucket seekW 0 (.envelope {}) (.envelope {}) (by decide)
      (by decide)).1,
   (wire_limit_spec Bucket seekW 0 (.envelope {}) (.envelope {}) (by decide)
      (by decide)).2.1,
   (wire_limit_spec Bucket seekW 0 (.envelope {}) (.envelope {}) (by decide)
      (by decide)).2.2.1⟩

/-! Claim C7: fixed parameter set and the fetch parameters. -/

/-- A bucket seeker with a caller-supplied fixed parameter set. -/
def seekPar : Seeker Bucket :=
  { db := dbOK, endpoint := "/b", params := some [("a", ["b"])] }

/-- C7 counterexample: loadData does not clone the fixed parameter set — the
local params variable aliases the stored map, so one (exhausted) Next call leaves
the stored set extended with the limit and offset keys, refuting that the stored
fixed parameter set is unchanged by GetData and Next calls. -/
theorem params_alias_counterexample :
    Next Bucket seekPar 0 (.envelope {}) (.envelope { success := true }) =
      .ok ⟨{ db := dbOK, endpoint := "/b",
             params := some [("a", ["b"]), ("limit", ["10"]), ("offset", ["0"])] },
           [], some "no more data to load",
           [⟨.GET, "h/b?a=b&limit=10&offset=0", [], false⟩]⟩ ∧
    seekPar.params = some [("a", ["b"])] :=
  ⟨rfl, rfl⟩

/-- C7 amended: the fetch builds its query parameters on the stored fixed set
itself (or a fresh empty set when none was supplied), overwriting the limit and
offset keys; consequently after a fetch the stored set is exactly the sent
parameter set when one was supplied, and remains absent when none was. -/
theorem params_alias_spec (α : Type) [SeekItem α] (s : Seeker α) (now : Int)
    (rw qw : WireOutcome) (o : SeekOut α) (h : loadData α s now rw qw = .ok o) :
    (s.params = none → o.s.params = none) ∧
    (s.params.isSome = true → o.s.params = some (loadDataParams s)) ∧
    o.calls = (apiV1Request s.db now rw qw .GET
      (s.endpoint ++ "?" ++ valuesEncode (loadDataParams s)) none none).calls := by
  obtain ⟨-, -, -, -, -, -, hpn, hps, -, -, -, hcalls⟩ := loadData_cases α s now rw qw o h
  exact ⟨hpn, hps, hcalls⟩

/-- Witness for C7: the concrete post-fetch stored set equals the sent set. -/
theorem params_alias_spec_witness :
    loadData Bucket seekPar 0 (.envelope {}) (.envelope { success := true }) =
      .ok ⟨{ db := dbOK, endpoint := "/b",
             params := some [("a", ["b"]), ("limit", ["10"]), ("offset", ["0"])] },
           [], none, [⟨.GET, "h/b?a=b&limit=10&offset=0", [], false⟩]⟩ ∧
    ({ db := dbOK, endpoint := "/b",
       params := some [("a", ["b"]), ("limit", ["10"]), ("offset", ["0"])] } :
        Seeker Bucket).params = some (loadDataParams seekPar) :=
  ⟨rfl,
   (params_alias_spec Bucket seekPar 0 (.envelope {}) (.envelope { success := true })
      ⟨{ db := dbOK, endpoint := "/b",
         params := some [("a", ["b"]), ("limit", ["10"]), ("offset", ["0"])] },
       [], none, [⟨.GET, "h/b?a=b&limit=10&offset=0", [], false⟩]⟩ rfl).2.1 rfl⟩

/-! Claim C10: the limit guard. -/

/-- A bucket seeker whose limit was set to -3 by SetLimit. -/
def seekNegLimit : Seeker Bucket := SetLimit { db := dbOK, endpoint := "/b" } (-3)

/-- Helper: the fetch tail always returns an ok outcome (it contains no panic
site). -/
theorem loadDataFetch_ok (α : Type) [SeekItem α] (s₂ : Seeker α) (ps : Values)
    (now : Int) (rw qw : WireOutcome) :
    ∃ o, loadDataFetch α s₂ ps now rw qw = .ok o := by
  simp only [loadDataFetch]
  split
  · exact ⟨_, rfl⟩
  · split
    · exact ⟨_, rfl⟩
    · split
      · exact ⟨_, rfl⟩
      · exact ⟨_, rfl⟩

/-- C10 counterexample: the wire-limit computation is free of modulo-by-zero for
the negative limit -3 as well — the fetch completes without panic although
-3 fails the precondition limit at least 1, refuting that the computation is
well-defined only under that precondition. -/
theorem limit_guard_counterexample :
    loadData Bucket seekNegLimit 0 (.envelope {}) (.envelope { success := true }) =
      .ok ⟨{ db := dbOK, limit := -3, endpoint := "/b" }, [], none,
           [⟨.GET, "h/b?limit=-3&offset=0", [], false⟩]⟩ ∧
    ¬(1 ≤ seekNegLimit.limit) :=
  ⟨rfl, by decide⟩

/-- C10 amended: SetLimit stores any integer with no validation; the unguarded
wire-limit computation limit - (offset % limit) is free of modulo-by-zero
exactly when limit is non-zero (in particular the precondition limit at least 1
suffices, and then the sent value lies in [1, limit]); for a seeker whose limit
has been set to 0, every Next call and every cache-missing GetData call reaches
the modulo-by-zero panic. -/
theorem limit_guard_spec (α : Type) [SeekItem α] (s : Seeker α) (n now : Int)
    (rw qw : WireOutcome) :
    SetLimit s n = { s with limit := n } ∧
    (s.limit ≠ 0 → ∃ o, loadData α s now rw qw = .ok o) ∧
    (s.limit = 0 →
      Next α s now rw qw = .panic "runtime error: integer divide by zero" ∧
      (cacheLookup s.cache s.offset = none →
        GetData α s now rw qw = .panic "runtime error: integer divide by zero")) := by
  refine ⟨rfl, ?_, ?_⟩
  · intro hne
    rcases hp : s.params with _ | ps
    · simp only [loadData, hp]
      rw [if_neg (show ¬({ s with lastFetched := now } : Seeker α).limit = 0 from hne)]
      exact loadDataFetch_ok α _ _ now rw qw
    · simp only [loadData, hp]
      rw [if_neg (show ¬({ s with lastFetched := now } : Seeker α).limit = 0 from hne)]
      exact loadDataFetch_ok α _ _ now rw qw
  · intro h₀
    refine ⟨?_, fun hmiss => ?_⟩
    · simp [Next, loadData, h₀]
    · simp [GetData, hmiss, Next, loadData, h₀]

/-- Witness for C10: the non-zero limit 10 fetch completes, and the limit-0
seeker panics in Next and in a cache-missing GetData. -/
theorem limit_guard_spec_witness :
    SetLimit seekW 0 = { seekW with limit := 0 } ∧
    (∃ o, loadData Bucket seekW 0 (.envelope {}) (.envelope {}) = .ok o) ∧
    Next Bucket (SetLimit seekW 0) 0 (.envelope {}) (.envelope {}) =
      .panic "runtime error: integer divide by zero" ∧
    GetData Bucket (SetLimit seekW 0) 0 (.envelope {}) (.envelope {}) =
      .panic "runtime error: integer divide by zero" :=
  ⟨(limit_guard_spec Bucket seekW 0 0 (.envelope {}) (.envelope {})).1,
   (limit_guard_spec Bucket seekW 0 0 (.envelope {}) (.envelope {})).2.1 (by decide),
   ((limit_guard_spec Bucket (SetLimit seekW 0) 0 0 (.envelope {})
      (.envelope {})).2.2 rfl).1,
   ((limit_guard_spec Bucket (SetLimit seekW 0) 0 0 (.envelope {})
      (.envelope {})).2.2 rfl).2 rfl⟩

end BucketClient
